import Mathlib

/-!
Verification of the RedHat provisioner of `libmachine/provision/redhat.go`.

The Go source is shallowly embedded: pure computations become Lean functions,
remote command execution is modelled by an explicit response oracle
(`Nat → Except Err String`, one response per issued command) together with a
state recording the issued-command trace, and fallible operations return
`Except Err _`.  Components of the repository that are outside the provided
source file (the service-action verb table, the readiness poll loop, the
options-directory / auth / swarm steps, the driver's privilege-escalation
wrapper and the template engine) are modelled from the specification and
marked as such in their doc comments.
-/

namespace Provision

/-- Error kinds surfaced by the provisioner (spec section 7): the
`ErrUnknownYumOsRelease` value of the source, remote command failures,
readiness timeout and template failures. -/
inductive Err where
  | unknownYumOsRelease
  | cmdFailure (msg : String)
  | readinessTimeout
  | templateFailure (msg : String)
deriving Repr, DecidableEq

/-- Identity of the target OS (`releaseInfo` in the source), obtained from the
remote host by `GetOsReleaseInfo` (outside the provided source file). -/
structure OsReleaseInfo where
  id : String
  version : String
deriving Repr, DecidableEq

/-- `PackageListInfo` of the source: the repository coordinate substituted
into `packageListTemplate`. -/
structure PackageListInfo where
  osRelease : String
  osReleaseVersion : String
deriving Repr, DecidableEq

/-- The `switch releaseInfo.Id` of `generateYumRepoList` (redhat.go lines
306-316): `rhel`/`centos` map to the `centos`/`7` repository, `fedora` to
`fedora`/`22`, everything else is `ErrUnknownYumOsRelease`. -/
def yumRepoCoordinate (id : String) : Except Err PackageListInfo :=
  if id = "rhel" ∨ id = "centos" then
    Except.ok ⟨"centos", "7"⟩
  else if id = "fedora" then
    Except.ok ⟨"fedora", "22"⟩
  else
    Except.error Err.unknownYumOsRelease

/-- `packageListTemplate` of the source executed on a `PackageListInfo`:
the rendered yum repository definition file. -/
def renderPackageListTemplate (pli : PackageListInfo) : String :=
  "[docker]\nname=Docker Stable Repository\nbaseurl=https://yum.dockerproject.org/repo/main/"
    ++ pli.osRelease ++ "/" ++ pli.osReleaseVersion
    ++ "\npriority=1\nenabled=1\ngpgkey=https://yum.dockerproject.org/gpg\n"

/-- `generateYumRepoList` of the source: obtain the OS release info (passed in
as the outcome of `GetOsReleaseInfo`, which lives outside the provided source
file), resolve the repository coordinate, and render the repository file. -/
def generateYumRepoList (getInfo : Except Err OsReleaseInfo) : Except Err String :=
  match getInfo with
  | Except.error e => Except.error e
  | Except.ok info =>
    match yumRepoCoordinate info.id with
    | Except.error e => Except.error e
    | Except.ok pli => Except.ok (renderPackageListTemplate pli)

/-- `pkgaction.PackageAction`: closed enumeration of package actions. -/
inductive PackageAction where
  | install
  | remove
  | upgrade
deriving Repr, DecidableEq

/-- The `switch action` of `Package` (redhat.go lines 152-159): the yum verb
substituted for each package action. -/
def packageActionVerb : PackageAction → String
  | PackageAction.install => "install"
  | PackageAction.remove => "remove"
  | PackageAction.upgrade => "upgrade"

/-- `serviceaction.ServiceAction`: closed enumeration of service actions. -/
inductive ServiceAction where
  | start
  | stop
  | restart
  | enable
  | disable
deriving Repr, DecidableEq

/-- Modelled from the spec: `serviceaction.ServiceAction.String()` is outside
the provided source file; per spec sections 2 and 3 each service-action
variant maps deterministically to exactly one non-empty command verb, the
systemctl subcommand of the same name. -/
def serviceActionString : ServiceAction → String
  | ServiceAction.start => "start"
  | ServiceAction.stop => "stop"
  | ServiceAction.restart => "restart"
  | ServiceAction.enable => "enable"
  | ServiceAction.disable => "disable"

/-- Go `%q` formatting of a single character (the escapes of `strconv.Quote`
relevant here: quote, backslash and the common control characters; all other
characters pass through unchanged). -/
def goQuoteChar (c : Char) : List Char :=
  if c = '"' then ['\\', '"']
  else if c = '\\' then ['\\', '\\']
  else if c = '\n' then ['\\', 'n']
  else if c = '\t' then ['\\', 't']
  else if c = '\r' then ['\\', 'r']
  else [c]

/-- Go `%q` formatting of the characters of a string. -/
def goQuoteData : List Char → List Char
  | [] => []
  | c :: cs => goQuoteChar c ++ goQuoteData cs

/-- Go `%q` formatting of a string: the escaped body wrapped in double
quotes. -/
def goQuote (s : String) : String :=
  String.mk ('"' :: (goQuoteData s.data ++ ['"']))

/-- Modelled from the spec: the driver backend (`drivers.Driver`, outside the
provided source file) supplies the machine's logical name, the
privilege-escalation wrapper prepended to commands (`SSHSudo`), and the
driver name used for the `provider=` label. -/
structure Driver where
  machineName : String
  sudoWrap : String
  driverName : String
deriving Repr, DecidableEq

/-- Modelled from the spec: `Driver.SSHSudo` (outside the provided source
file) wraps a command with the privilege-escalation prefix. -/
def sudoCmd (d : Driver) (c : String) : String := d.sudoWrap ++ c

/-- State of the remote command channel test double: how many commands have
been issued so far and the trace of issued command strings. -/
structure ExecSt where
  idx : Nat
  trace : List String
deriving Repr, DecidableEq

/-- One `SSHCommand` invocation: the response oracle `resp` supplies the
outcome of the `idx`-th issued command; the command string is appended to the
trace. -/
def sshRun (resp : Nat → Except Err String) (cmd : String) (s : ExecSt) :
    Except Err String × ExecSt :=
  (resp s.idx, ⟨s.idx + 1, s.trace ++ [cmd]⟩)

/-- The first command of `SetHostname` (redhat.go lines 91-96): set the live
hostname and persist it to `/etc/hostname`. -/
def hostnameCmd (d : Driver) (h : String) : String :=
  sudoCmd d ("sh -c 'hostname " ++ h ++ " && echo " ++ goQuote h ++ " | tee /etc/hostname'")

/-- The second command of `SetHostname` (redhat.go lines 102-110): the
conditional remote script updating the loopback entry of `/etc/hosts`. -/
def etcHostsCmd (d : Driver) (h : String) : String :=
  "if grep -xq 127.0.1.1.* /etc/hosts; then "
    ++ sudoCmd d ("sh -c \"sed -i 's/^127.0.1.1.*/127.0.1.1 " ++ h ++ "/g' /etc/hosts\"")
    ++ "; else "
    ++ sudoCmd d ("sh -c \"echo '127.0.1.1 " ++ h ++ "' | tee -a /etc/hosts\"")
    ++ "; fi"

/-- `SetHostname` of the source: issue the hostname command, then (on
success) the `/etc/hosts` update command, propagating the first failure. -/
def setHostnameRun (d : Driver) (resp : Nat → Except Err String) (h : String)
    (s : ExecSt) : Except Err Unit × ExecSt :=
  match sshRun resp (hostnameCmd d h) s with
  | (Except.error e, s1) => (Except.error e, s1)
  | (Except.ok _, s1) =>
    match sshRun resp (etcHostsCmd d h) s1 with
    | (Except.error e, s2) => (Except.error e, s2)
    | (Except.ok _, s2) => (Except.ok (), s2)

/-- The yum command issued by `Package`: the sudo-wrapped
`yum <verb> -y <name>`. -/
def pkgCmd (d : Driver) (a : PackageAction) (name : String) : String :=
  sudoCmd d ("yum " ++ packageActionVerb a ++ " -y " ++ name)

/-- `Package` of the source: build the yum verb for the action and execute
the sudo-wrapped yum command. -/
def packageRun (d : Driver) (resp : Nat → Except Err String) (name : String)
    (a : PackageAction) (s : ExecSt) : Except Err Unit × ExecSt :=
  match sshRun resp (pkgCmd d a name) s with
  | (Except.error e, s1) => (Except.error e, s1)
  | (Except.ok _, s1) => (Except.ok (), s1)

/-- The sudo-wrapped `systemctl daemon-reload` command of `Service`. -/
def reloadCmd (d : Driver) : String := sudoCmd d "systemctl daemon-reload"

/-- The sudo-wrapped `systemctl <action> <name>` control command of
`Service`. -/
def ctlCmd (d : Driver) (a : ServiceAction) (name : String) : String :=
  sudoCmd d ("systemctl " ++ serviceActionString a ++ " " ++ name)

/-- `Service` of the source (redhat.go lines 122-147): for `Start` and
`Restart` a `systemctl daemon-reload` is issued first (aborting on its
failure); then the `systemctl <action> <name>` control command is issued. -/
def serviceRun (d : Driver) (resp : Nat → Except Err String) (name : String)
    (action : ServiceAction) (s : ExecSt) : Except Err Unit × ExecSt :=
  let reloadDaemon :=
    match action with
    | ServiceAction.start => true
    | ServiceAction.restart => true
    | _ => false
  if reloadDaemon then
    match sshRun resp (reloadCmd d) s with
    | (Except.error e, s1) => (Except.error e, s1)
    | (Except.ok _, s1) =>
      match sshRun resp (ctlCmd d action name) s1 with
      | (Except.error e, s2) => (Except.error e, s2)
      | (Except.ok _, s2) => (Except.ok (), s2)
  else
    match sshRun resp (ctlCmd d action name) s with
    | (Except.error e, s1) => (Except.error e, s1)
    | (Except.ok _, s1) => (Except.ok (), s1)

/-- `dockerDaemonResponding` of the source: issue the sudo-wrapped
`docker version` command; a failure is reported as `false` (not ready yet),
success as `true`; no error is ever propagated. -/
def dockerDaemonRespondingRun (d : Driver) (resp : Nat → Except Err String)
    (s : ExecSt) : Bool × ExecSt :=
  match sshRun resp (sudoCmd d "docker version") s with
  | (Except.error _, s1) => (false, s1)
  | (Except.ok _, s1) => (true, s1)

/-- Boolean success test of an `Except` result. -/
def exceptOk : Except Err String → Bool
  | Except.ok _ => true
  | Except.error _ => false

/-- `engine.EngineOptions`: the engine-options fields consumed by this
provisioner (storage driver, labels, registries, arbitrary flags,
environment variables). -/
structure EngineOptions where
  storageDriver : String
  labels : List String
  insecureRegistry : List String
  registryMirror : List String
  arbitraryFlags : List String
  env : List String
deriving Repr, DecidableEq

/-- `auth.AuthOptions`: the certificate remote paths consumed by the engine
configuration renderer. -/
structure AuthOptions where
  caCertRemotePath : String
  serverCertRemotePath : String
  serverKeyRemotePath : String
deriving Repr, DecidableEq

/-- `swarm.SwarmOptions`: opaque to this file (swarm configuration is an
external collaborator); only its presence in the provisioner state
matters. -/
structure SwarmOptions where
  isSwarm : Bool
deriving Repr, DecidableEq

/-- `GenericProvisioner` state embedded in `RedHatProvisioner`: fixed paths,
the base package list, the driver and the mutable option fields set during
provisioning. -/
structure GenericProvisioner where
  dockerOptionsDir : String
  daemonOptionsFile : String
  osReleaseId : String
  packages : List String
  driver : Driver
  engineOptions : EngineOptions
  authOptions : AuthOptions
  swarmOptions : SwarmOptions
deriving Repr, DecidableEq

/-- The command of `ConfigurePackageList` transporting the rendered
repository file to `/etc/yum.repos.d/docker.repo`. -/
def repoFileCmd (d : Driver) (buf : String) : String :=
  sudoCmd d ("sh -c 'echo " ++ goQuote buf ++ " | sudo tee /etc/yum.repos.d/docker.repo'")

/-- `ConfigurePackageList` of the source: render the yum repository file via
`generateYumRepoList` (aborting on resolution failure) and transport it to
the remote host. -/
def configurePackageListRun (d : Driver) (resp : Nat → Except Err String)
    (getInfo : Except Err OsReleaseInfo) (s : ExecSt) : Except Err Unit × ExecSt :=
  match generateYumRepoList getInfo with
  | Except.error e => (Except.error e, s)
  | Except.ok buf =>
    match sshRun resp (repoFileCmd d buf) s with
    | (Except.error e, s1) => (Except.error e, s1)
    | (Except.ok _, s1) => (Except.ok (), s1)

/-- `installOfficialDocker` of the source: configure the package list, then
run the sudo-wrapped `yum install -y docker-engine`. -/
def installOfficialDockerRun (d : Driver) (resp : Nat → Except Err String)
    (getInfo : Except Err OsReleaseInfo) (s : ExecSt) : Except Err Unit × ExecSt :=
  match configurePackageListRun d resp getInfo s with
  | (Except.error e, s1) => (Except.error e, s1)
  | (Except.ok _, s1) =>
    match sshRun resp (sudoCmd d "yum install -y docker-engine") s1 with
    | (Except.error e, s2) => (Except.error e, s2)
    | (Except.ok _, s2) => (Except.ok (), s2)

/-- `installDocker` of the source: install the engine, then restart and
enable the docker service. -/
def installDockerRun (d : Driver) (resp : Nat → Except Err String)
    (getInfo : Except Err OsReleaseInfo) (s : ExecSt) : Except Err Unit × ExecSt :=
  match installOfficialDockerRun d resp getInfo s with
  | (Except.error e, s1) => (Except.error e, s1)
  | (Except.ok _, s1) =>
    match serviceRun d resp "docker" ServiceAction.restart s1 with
    | (Except.error e, s2) => (Except.error e, s2)
    | (Except.ok _, s2) => serviceRun d resp "docker" ServiceAction.enable s2

/-- The base-package installation loop of `Provision` (redhat.go lines
227-232): install each base package in order, aborting on first failure. -/
def installPackagesRun (d : Driver) (resp : Nat → Except Err String) :
    List String → ExecSt → Except Err Unit × ExecSt
  | [], s => (Except.ok (), s)
  | pkg :: rest, s =>
    match packageRun d resp pkg PackageAction.install s with
    | (Except.error e, s1) => (Except.error e, s1)
    | (Except.ok _, s1) => installPackagesRun d resp rest s1

/-- Modelled from the spec: `mcnutils.WaitFor` is outside the provided
source file; per spec section 4.6 the poller invokes the boolean probe, terminates
successfully on the first `true`, retries on `false`, and fails with a
readiness-timeout error once the bounded number of attempts is exhausted. -/
def waitFor (probe : ExecSt → Bool × ExecSt) : Nat → ExecSt → Except Err Unit × ExecSt
  | 0, s => (Except.error Err.readinessTimeout, s)
  | n + 1, s =>
    match probe s with
    | (true, s1) => (Except.ok (), s1)
    | (false, s1) => waitFor probe n s1

/-- Modelled from the spec: the bounded number of readiness probe attempts
(spec section 4.6, a fixed bound). -/
def maxReadinessAttempts : Nat := 60

/-- Modelled from the spec: `makeDockerOptionsDir` is outside the provided
source file; per spec section 4.7 the options-directory creation step issues one
remote command creating the options directory. -/
def makeDockerOptionsDirRun (d : Driver) (resp : Nat → Except Err String)
    (dir : String) (s : ExecSt) : Except Err Unit × ExecSt :=
  match sshRun resp (sudoCmd d ("mkdir -p " ++ dir)) s with
  | (Except.error e, s1) => (Except.error e, s1)
  | (Except.ok _, s1) => (Except.ok (), s1)

/-- Modelled from the spec: `ConfigureAuth` is outside the provided source
file; per spec sections 2 and 4.7 the auth-configuration step issues remote
commands through the channel and aborts the run on failure (abstracted here
to a single channel command; the auth-options re-derivation that precedes it
is pure and does not touch the channel). -/
def configureAuthRun (d : Driver) (resp : Nat → Except Err String)
    (s : ExecSt) : Except Err Unit × ExecSt :=
  match sshRun resp (sudoCmd d "configure-auth") s with
  | (Except.error e, s1) => (Except.error e, s1)
  | (Except.ok _, s1) => (Except.ok (), s1)

/-- Modelled from the spec: `configureSwarm` is outside the provided source
file; per spec sections 2 and 4.7 the swarm-configuration step issues remote
commands through the channel and aborts the run on failure (abstracted here
to a single channel command). -/
def configureSwarmRun (d : Driver) (resp : Nat → Except Err String)
    (s : ExecSt) : Except Err Unit × ExecSt :=
  match sshRun resp (sudoCmd d "configure-swarm") s with
  | (Except.error e, s1) => (Except.error e, s1)
  | (Except.ok _, s1) => (Except.ok (), s1)

/-- A provisioning step: issues commands through the channel state and
either succeeds or aborts with an error. -/
def StepT : Type := ExecSt → Except Err Unit × ExecSt

/-- Run a list of named steps in order: on the first step failure the run
stops (no later step executes, no cleanup command is issued) and the failing
step's error is returned; the log records the names of the steps that were
invoked, in order. -/
def runStepsT : List (String × StepT) → ExecSt → List String →
    Except Err Unit × ExecSt × List String
  | [], s, log => (Except.ok (), s, log)
  | (nm, st) :: rest, s, log =>
    match st s with
    | (Except.ok _, s1) => runStepsT rest s1 (log ++ [nm])
    | (Except.error e, s1) => (Except.error e, s1, log ++ [nm])

/-- The fixed linear step order of `Provision` (redhat.go lines 213-264). -/
def provisionStepNames : List String :=
  ["set-hostname", "install-base-packages", "yum-update", "install-docker",
   "wait-docker-daemon", "make-docker-options-dir", "configure-auth",
   "configure-swarm"]

/-- The option assignments at the top of `Provision` (redhat.go lines
214-221): store the caller-supplied options and default the storage driver
to `devicemapper` when the caller left it empty. -/
def provisionInit (p : GenericProvisioner) (sw : SwarmOptions)
    (au : AuthOptions) (en : EngineOptions) : GenericProvisioner :=
  let p1 := { p with swarmOptions := sw, authOptions := au, engineOptions := en }
  if p1.engineOptions.storageDriver = "" then
    { p1 with engineOptions := { p1.engineOptions with storageDriver := "devicemapper" } }
  else p1

/-- The step list of `Provision` for a provisioner whose options have already
been initialised: hostname, base packages, OS update, repository
configuration + engine install, readiness poll, options directory, auth,
swarm. -/
def provisionSteps (p : GenericProvisioner) (getInfo : Except Err OsReleaseInfo)
    (resp : Nat → Except Err String) : List (String × StepT) :=
  [("set-hostname", setHostnameRun p.driver resp p.driver.machineName),
   ("install-base-packages", installPackagesRun p.driver resp p.packages),
   ("yum-update", fun s =>
      match sshRun resp (sudoCmd p.driver "yum -y update") s with
      | (Except.error e, s1) => (Except.error e, s1)
      | (Except.ok _, s1) => (Except.ok (), s1)),
   ("install-docker", installDockerRun p.driver resp getInfo),
   ("wait-docker-daemon",
      waitFor (dockerDaemonRespondingRun p.driver resp) maxReadinessAttempts),
   ("make-docker-options-dir", makeDockerOptionsDirRun p.driver resp p.dockerOptionsDir),
   ("configure-auth", configureAuthRun p.driver resp),
   ("configure-swarm", configureSwarmRun p.driver resp)]

/-- `Provision` of the source: initialise the option fields (including the
storage-driver default) and run the fixed step sequence from a fresh channel
state, recording the step log. -/
def provision (p : GenericProvisioner) (sw : SwarmOptions) (au : AuthOptions)
    (en : EngineOptions) (getInfo : Except Err OsReleaseInfo)
    (resp : Nat → Except Err String) : Except Err Unit × ExecSt × List String :=
  runStepsT (provisionSteps (provisionInit p sw au en) getInfo resp) ⟨0, []⟩ []

/-- `EngineConfigContext` of the source: the snapshot rendered into the
engine service-unit text. -/
structure EngineConfigContext where
  dockerPort : Int
  authOptions : AuthOptions
  engineOptions : EngineOptions
  dockerOptionsDir : String
deriving Repr, DecidableEq

/-- `DockerOptions` of the source: rendered configuration text plus its
remote destination path. -/
structure DockerOptions where
  engineOptions : String
  engineOptionsPath : String
deriving Repr, DecidableEq

/-- Concatenation of the fragments a Go template `range` action emits, one
fragment per collection element, in iteration order. -/
def concatMap (f : String → String) : List String → String
  | [] => ""
  | x :: xs => f x ++ concatMap f xs

/-- The labels `range` of `engineConfigTemplate`: one `--label <l> ` fragment
per label. -/
def labelFlags (ls : List String) : String :=
  concatMap (fun l => "--label " ++ l ++ " ") ls

/-- The insecure-registry `range` of `engineConfigTemplate`. -/
def insecureRegistryFlags (ls : List String) : String :=
  concatMap (fun r => "--insecure-registry " ++ r ++ " ") ls

/-- The registry-mirror `range` of `engineConfigTemplate`. -/
def registryMirrorFlags (ls : List String) : String :=
  concatMap (fun r => "--registry-mirror " ++ r ++ " ") ls

/-- The arbitrary-flags `range` of `engineConfigTemplate`: one `--<f> `
fragment per element. -/
def arbitraryFlagsText (ls : List String) : String :=
  concatMap (fun f => "--" ++ f ++ " ") ls

/-- The environment `range` of `engineConfigTemplate`: each variable
individually `%q`-quoted, one fragment per variable. -/
def envText (ls : List String) : String :=
  concatMap (fun e => goQuote e ++ " ") ls

/-- The `ExecStart` line of `engineConfigTemplate` executed on a context:
executable invocation, port, storage driver, TLS flags, then the four
repeated collections in template order, each on this same line. -/
def execStartLine (c : EngineConfigContext) : String :=
  "ExecStart=/usr/bin/docker -d -H tcp://0.0.0.0:" ++ toString c.dockerPort
    ++ " -H unix:///var/run/docker.sock --storage-driver "
    ++ c.engineOptions.storageDriver
    ++ " --tlsverify --tlscacert " ++ c.authOptions.caCertRemotePath
    ++ " --tlscert " ++ c.authOptions.serverCertRemotePath
    ++ " --tlskey " ++ c.authOptions.serverKeyRemotePath ++ " "
    ++ labelFlags c.engineOptions.labels
    ++ insecureRegistryFlags c.engineOptions.insecureRegistry
    ++ registryMirrorFlags c.engineOptions.registryMirror
    ++ arbitraryFlagsText c.engineOptions.arbitraryFlags

/-- The `Environment` line of `engineConfigTemplate` executed on a
context. -/
def envLine (c : EngineConfigContext) : String :=
  "Environment=" ++ envText c.engineOptions.env

/-- `engineConfigTemplate` executed on a context (the successful execution
of the fixed template of redhat.go lines 30-37): the full service-unit text,
line by line in template order, nested so that each newline separator is
explicit. -/
def renderEngineConfig (c : EngineConfigContext) : String :=
  "[Service]" ++ "\n"
    ++ (execStartLine c ++ "\n"
    ++ ("MountFlags=slave" ++ "\n"
    ++ ("LimitNOFILE=1048576" ++ "\n"
    ++ ("LimitNPROC=1048576" ++ "\n"
    ++ ("LimitCORE=infinity" ++ "\n"
    ++ (envLine c ++ "\n"))))))

/-- Split a character list at every newline character; the result always has
one entry per line, including a final entry for the text after the last
newline. -/
def splitChAux : List Char → List Char × List (List Char)
  | [] => ([], [])
  | c :: cs =>
    if c = '\n' then ([], (splitChAux cs).1 :: (splitChAux cs).2)
    else (c :: (splitChAux cs).1, (splitChAux cs).2)

/-- The lines of a string (split at newline characters). -/
def splitLines (s : String) : List String :=
  ((splitChAux s.data).1 :: (splitChAux s.data).2).map (fun l => String.mk l)

/-- A string free of newline characters (occupies a single line). -/
def noNL (s : String) : Prop := '\n' ∉ s.data

instance (s : String) : Decidable (noNL s) := by
  unfold noNL
  infer_instance

/-- Modelled from the spec: the template engine consumed by
`GenerateDockerOptions` (Go's `text/template`, an external collaborator);
`parseOutcome` is the outcome of parsing the fixed `engineConfigTemplate`,
and `execOutcome` returns the buffer contents written for a context together
with the execution outcome — on failure the buffer holds the partially
rendered text written before the failure. -/
structure TemplateEngine where
  parseOutcome : Except Err Unit
  execOutcome : EngineConfigContext → String × Except Err Unit

/-- The real template engine: parsing the fixed literal template succeeds
and execution writes `renderEngineConfig` in full. -/
def realTemplateEngine : TemplateEngine :=
  ⟨Except.ok (), fun c => (renderEngineConfig c, Except.ok ())⟩

/-- The label append at the top of `GenerateDockerOptions` (redhat.go lines
272-273): the `provider=<driver name>` label is appended to the stored
engine-options labels, mutating the provisioner state. -/
def appendProviderLabel (p : GenericProvisioner) : GenericProvisioner :=
  { p with engineOptions :=
      { p.engineOptions with labels :=
          p.engineOptions.labels ++ ["provider=" ++ p.driver.driverName] } }

/-- `GenerateDockerOptions` of the source: append the provider label to the
stored labels, parse the fixed template (returning the parse error if any),
execute it on the context built from the mutated state — the execution
outcome is discarded, exactly as in the source, where the error result of
`t.Execute` is ignored — and return the buffer contents together with the
daemon options file path. -/
def generateDockerOptions (eng : TemplateEngine) (p : GenericProvisioner)
    (dockerPort : Int) : GenericProvisioner × Except Err DockerOptions :=
  let p1 := appendProviderLabel p
  match eng.parseOutcome with
  | Except.error e => (p1, Except.error e)
  | Except.ok _ =>
    let out := eng.execOutcome
      ⟨dockerPort, p1.authOptions, p1.engineOptions, p1.dockerOptionsDir⟩
    (p1, Except.ok ⟨out.1, p1.daemonOptionsFile⟩)

/-- Whole-line match of the pattern `127.0.1.1.*` used by both the `grep -x`
guard and the anchored `sed` substitution of the `/etc/hosts` update: the
line must start with nine characters matching `1`, `2`, `7`, any, `0`, any,
`1`, any, `1` (a regex dot matches any character), followed by anything. -/
def matchesLoopbackChars : List Char → Bool
  | '1' :: '2' :: '7' :: _ :: '0' :: _ :: '1' :: _ :: '1' :: _ => true
  | _ => false

/-- Whole-line match of `127.0.1.1.*` on a string line. -/
def matchesLoopback (l : String) : Bool := matchesLoopbackChars l.data

/-- The `/etc/hosts` update script of `SetHostname` (redhat.go lines
102-110), on the file as a list of lines: if some line matches the loopback
pattern, `sed` rewrites every matching line to `127.0.1.1 <hostname>`;
otherwise `tee -a` appends that line. -/
def updateEtcHosts (hostname : String) (hosts : List String) : List String :=
  if hosts.any matchesLoopback then
    hosts.map (fun l => if matchesLoopback l then "127.0.1.1 " ++ hostname else l)
  else
    hosts ++ ["127.0.1.1 " ++ hostname]

/-! Concrete fixtures used by witnesses. -/

/-- A concrete driver: machine name, privilege-escalation wrapper and driver
name. -/
def driver0 : Driver := ⟨"devmachine", "sudo ", "virtualbox"⟩

/-- Concrete auth options. -/
def auth0 : AuthOptions :=
  ⟨"/etc/docker/ca.pem", "/etc/docker/server.pem", "/etc/docker/server-key.pem"⟩

/-- Concrete swarm options. -/
def swarm0 : SwarmOptions := ⟨false⟩

/-- Concrete engine options with every field empty (as a fresh host's
caller-supplied options). -/
def engineOpts0 : EngineOptions := ⟨"", [], [], [], [], []⟩

/-- The provisioner state `NewRedHatProvisioner` constructs: fixed docker
paths, OS release id `rhel` and base package list `curl`. -/
def prov0 : GenericProvisioner :=
  ⟨"/etc/docker", "/etc/systemd/system/docker.service", "rhel", ["curl"],
   driver0, engineOpts0, auth0, swarm0⟩

/-! Claim theorems. -/

/-- C1: `rhel` and `centos` resolve to repository family `centos` version
`7`, `fedora` to family `fedora` version `22`, and every other OS release
identifier yields `ErrUnknownYumOsRelease` — `generateYumRepoList` then
returns that error and no repository file, never a silent default. -/
theorem yumRepoCoordinate_resolution (id : String) :
    ((id = "rhel" ∨ id = "centos") →
      yumRepoCoordinate id = Except.ok ⟨"centos", "7"⟩) ∧
    (id = "fedora" → yumRepoCoordinate id = Except.ok ⟨"fedora", "22"⟩) ∧
    (id ≠ "rhel" → id ≠ "centos" → id ≠ "fedora" →
      yumRepoCoordinate id = Except.error Err.unknownYumOsRelease ∧
      ∀ ver : String, generateYumRepoList (Except.ok ⟨id, ver⟩) =
        Except.error Err.unknownYumOsRelease) := by
  refine ⟨?_, ?_, ?_⟩
  · intro h
    unfold yumRepoCoordinate
    rw [if_pos h]
  · intro h
    subst h
    rfl
  · intro h1 h2 h3
    have hc : yumRepoCoordinate id = Except.error Err.unknownYumOsRelease := by
      unfold yumRepoCoordinate
      rw [if_neg (by simp [h1, h2]), if_neg h3]
    refine ⟨hc, ?_⟩
    intro ver
    unfold generateYumRepoList
    simp only []
    rw [hc]

/-- Witness for C1 at the concrete identifiers `rhel`, `fedora` and
`debian`. -/
theorem yumRepoCoordinate_resolution_witness :
    yumRepoCoordinate "rhel" = Except.ok ⟨"centos", "7"⟩ ∧
    yumRepoCoordinate "fedora" = Except.ok ⟨"fedora", "22"⟩ ∧
    generateYumRepoList (Except.ok ⟨"debian", "8"⟩) =
      Except.error Err.unknownYumOsRelease :=
  ⟨(yumRepoCoordinate_resolution "rhel").1 (Or.inl rfl),
   (yumRepoCoordinate_resolution "fedora").2.1 rfl,
   ((yumRepoCoordinate_resolution "debian").2.2 (by decide) (by decide)
      (by decide)).2 "8"⟩

/-- C4: the command-verb mapping is total over the package-action and
service-action enumerations and never produces an empty verb. -/
theorem actionVerbs_total_nonempty (pa : PackageAction) (sa : ServiceAction) :
    packageActionVerb pa ≠ "" ∧ serviceActionString sa ≠ "" := by
  cases pa <;> cases sa <;> exact ⟨by decide, by decide⟩

/-- C3: `Provision` stores the caller-supplied options and, before any step
runs (hence before the engine install step), defaults an empty storage
driver to `devicemapper`, leaving a non-empty caller-supplied storage driver
unchanged. -/
theorem provision_default_storage_driver (p : GenericProvisioner)
    (sw : SwarmOptions) (au : AuthOptions) (en : EngineOptions) :
    (en.storageDriver = "" →
      (provisionInit p sw au en).engineOptions.storageDriver = "devicemapper") ∧
    (en.storageDriver ≠ "" →
      (provisionInit p sw au en).engineOptions.storageDriver = en.storageDriver) := by
  constructor
  · intro h
    simp [provisionInit, h]
  · intro h
    simp [provisionInit, h]

/-- Witness for C3: with no storage driver supplied the default is
`devicemapper`; a supplied `btrfs` driver is kept. -/
theorem provision_default_storage_driver_witness :
    (provisionInit prov0 swarm0 auth0 engineOpts0).engineOptions.storageDriver
      = "devicemapper" ∧
    (provisionInit prov0 swarm0 auth0
        { engineOpts0 with storageDriver := "btrfs" }).engineOptions.storageDriver
      = "btrfs" :=
  ⟨(provision_default_storage_driver prov0 swarm0 auth0 engineOpts0).1 rfl,
   (provision_default_storage_driver prov0 swarm0 auth0
      { engineOpts0 with storageDriver := "btrfs" }).2 (by decide)⟩

/-- C8: the readiness probe issues exactly one remote command and never
propagates an error: it reports `true` exactly when the command succeeds and
`false` when it fails. -/
theorem dockerDaemonResponding_no_error (d : Driver)
    (resp : Nat → Except Err String) (s : ExecSt) :
    ((∃ o, resp s.idx = Except.ok o) →
      (dockerDaemonRespondingRun d resp s).1 = true) ∧
    ((∃ e, resp s.idx = Except.error e) →
      (dockerDaemonRespondingRun d resp s).1 = false) ∧
    (dockerDaemonRespondingRun d resp s).2.trace
      = s.trace ++ [sudoCmd d "docker version"] ∧
    (dockerDaemonRespondingRun d resp s).2.idx = s.idx + 1 := by
  refine ⟨?_, ?_, ?_, ?_⟩
  · rintro ⟨o, ho⟩
    simp [dockerDaemonRespondingRun, sshRun, ho]
  · rintro ⟨e, he⟩
    simp [dockerDaemonRespondingRun, sshRun, he]
  · cases h : resp s.idx <;> simp [dockerDaemonRespondingRun, sshRun, h]
  · cases h : resp s.idx <;> simp [dockerDaemonRespondingRun, sshRun, h]

/-- Witness for C8: a successful `docker version` yields `true`, a failing
command channel yields `false` (and no error). -/
theorem dockerDaemonResponding_no_error_witness :
    (dockerDaemonRespondingRun driver0
        (fun _ => Except.ok "Docker version 1.8") ⟨0, []⟩).1 = true ∧
    (dockerDaemonRespondingRun driver0
        (fun _ => Except.error (Err.cmdFailure "ssh failed")) ⟨0, []⟩).1 = false :=
  ⟨(dockerDaemonResponding_no_error driver0
      (fun _ => Except.ok "Docker version 1.8") ⟨0, []⟩).1
      ⟨"Docker version 1.8", rfl⟩,
   (dockerDaemonResponding_no_error driver0
      (fun _ => Except.error (Err.cmdFailure "ssh failed")) ⟨0, []⟩).2.1
      ⟨Err.cmdFailure "ssh failed", rfl⟩⟩

/-- The first component of `GenerateDockerOptions` is always the provisioner
with the provider label appended, whatever the template outcome. -/
theorem generateDockerOptions_fst (eng : TemplateEngine)
    (p : GenericProvisioner) (port : Int) :
    (generateDockerOptions eng p port).1 = appendProviderLabel p := by
  unfold generateDockerOptions
  cases eng.parseOutcome <;> simp

/-- Iterating `GenerateDockerOptions` never changes the driver field. -/
theorem genIterate_driver (eng : TemplateEngine) (port : Int) (n : Nat)
    (p : GenericProvisioner) :
    (Nat.iterate (fun q => (generateDockerOptions eng q port).1) n p).driver
      = p.driver := by
  induction n generalizing p with
  | zero => rfl
  | succ n ih =>
    rw [Function.iterate_succ_apply]
    rw [ih]
    rw [generateDockerOptions_fst]
    rfl

/-- C10: every `GenerateDockerOptions` call appends the
`provider=<driver name>` label to the provisioner's stored labels, so after
`n` calls the stored label list holds the caller-supplied labels followed by
`n` copies of the provider label. -/
theorem generateDockerOptions_label_accumulation (eng : TemplateEngine)
    (port : Int) (p : GenericProvisioner) (n : Nat) :
    (Nat.iterate (fun q => (generateDockerOptions eng q port).1) n p).engineOptions.labels
      = p.engineOptions.labels
        ++ List.replicate n ("provider=" ++ p.driver.driverName) := by
  induction n with
  | zero => simp
  | succ n ih =>
    rw [Function.iterate_succ_apply']
    rw [generateDockerOptions_fst]
    unfold appendProviderLabel
    simp only []
    rw [ih]
    rw [genIterate_driver]
    rw [List.append_assoc]
    rw [← List.replicate_succ']

/-- C9 (code bug): when template execution fails after writing a partial
buffer, `GenerateDockerOptions` ignores the execution error — the source
discards the result of `t.Execute` — and returns a successful
`DockerOptions` built from the partially rendered buffer, contradicting the
spec's requirement that a `TemplateRenderError` be surfaced. -/
theorem generateDockerOptions_swallows_render_error (eng : TemplateEngine)
    (p : GenericProvisioner) (port : Int) (buf : String) (e : Err)
    (hp : eng.parseOutcome = Except.ok ())
    (hx : eng.execOutcome
        ⟨port, (appendProviderLabel p).authOptions,
         (appendProviderLabel p).engineOptions,
         (appendProviderLabel p).dockerOptionsDir⟩ = (buf, Except.error e)) :
    (generateDockerOptions eng p port).2 = Except.ok ⟨buf, p.daemonOptionsFile⟩ := by
  unfold generateDockerOptions
  rw [hp]
  simp only []
  rw [hx]
  rfl

/-- A template engine whose execution fails midway, leaving a partial
buffer. -/
def engFail0 : TemplateEngine :=
  ⟨Except.ok (), fun _ => ("[Service]\nExecSta", Except.error (Err.templateFailure "exec"))⟩

/-- Witness for C9: with the failing template engine, the source-faithful
`GenerateDockerOptions` returns success with the partial buffer. -/
theorem generateDockerOptions_swallows_render_error_witness :
    (generateDockerOptions engFail0 prov0 2376).2 =
      Except.ok ⟨"[Service]\nExecSta", "/etc/systemd/system/docker.service"⟩ :=
  generateDockerOptions_swallows_render_error engFail0 prov0 2376
    "[Service]\nExecSta" (Err.templateFailure "exec") rfl rfl

/-- C5: for every service name, `Service` with `Start` or `Restart` issues
exactly one `systemctl daemon-reload` command immediately before the
systemctl control command (the control command is reached only if the reload
succeeds), while `Stop`, `Enable` and `Disable` issue the control command
alone and never a daemon-reload. -/
theorem serviceRun_reload_policy (d : Driver) (resp : Nat → Except Err String)
    (name : String) (s : ExecSt) :
    ((serviceRun d resp name ServiceAction.start s).2.trace =
      s.trace ++ [reloadCmd d]
        ++ (if exceptOk (resp s.idx) then [ctlCmd d ServiceAction.start name] else [])) ∧
    ((serviceRun d resp name ServiceAction.restart s).2.trace =
      s.trace ++ [reloadCmd d]
        ++ (if exceptOk (resp s.idx) then [ctlCmd d ServiceAction.restart name] else [])) ∧
    ((serviceRun d resp name ServiceAction.stop s).2.trace =
      s.trace ++ [ctlCmd d ServiceAction.stop name]) ∧
    ((serviceRun d resp name ServiceAction.enable s).2.trace =
      s.trace ++ [ctlCmd d ServiceAction.enable name]) ∧
    ((serviceRun d resp name ServiceAction.disable s).2.trace =
      s.trace ++ [ctlCmd d ServiceAction.disable name]) := by
  refine ⟨?_, ?_, ?_, ?_, ?_⟩
  · cases h : resp s.idx with
    | ok v =>
      cases h2 : resp (s.idx + 1) <;>
        simp [serviceRun, sshRun, exceptOk, h, h2]
    | error e => simp [serviceRun, sshRun, exceptOk, h]
  · cases h : resp s.idx with
    | ok v =>
      cases h2 : resp (s.idx + 1) <;>
        simp [serviceRun, sshRun, exceptOk, h, h2]
    | error e => simp [serviceRun, sshRun, exceptOk, h]
  · cases h : resp s.idx <;> simp [serviceRun, sshRun, h]
  · cases h : resp s.idx <;> simp [serviceRun, sshRun, h]
  · cases h : resp s.idx <;> simp [serviceRun, sshRun, h]

/-- String concatenation concatenates the underlying character lists. -/
theorem data_append (s t : String) : (s ++ t).data = s.data ++ t.data := rfl

/-- Replacement lines written by the update match the loopback pattern
again. -/
theorem matchesLoopback_new (h : String) :
    matchesLoopback ("127.0.1.1 " ++ h) = true := by
  show matchesLoopbackChars (("127.0.1.1 " ++ h).data) = true
  rw [data_append]
  rfl

/-- The `sed` rewrite of all matching lines preserves the number of matching
lines: every matching line becomes the (still matching) replacement and
non-matching lines are untouched. -/
theorem countP_map_update (h : String) (hosts : List String) :
    ((hosts.map
        (fun l => if matchesLoopback l then "127.0.1.1 " ++ h else l)).countP
        matchesLoopback)
      = hosts.countP matchesLoopback := by
  induction hosts with
  | nil => rfl
  | cons x xs ih =>
    cases hx : matchesLoopback x with
    | true => simp [hx, List.countP_cons, matchesLoopback_new, ih]
    | false => simp [hx, List.countP_cons, ih]

/-- Every matching line of the updated file carries the new hostname. -/
theorem mem_updateEtcHosts_matching (h : String) (hosts : List String) :
    ∀ l ∈ updateEtcHosts h hosts, matchesLoopback l = true →
      l = "127.0.1.1 " ++ h := by
  intro l hl hm
  unfold updateEtcHosts at hl
  split at hl
  · rcases List.mem_map.mp hl with ⟨x, hx, hfx⟩
    cases hmx : matchesLoopback x with
    | true =>
      rw [← hfx]
      simp [hmx]
    | false =>
      rw [← hfx] at hm
      simp [hmx] at hm
  · rename_i ha
    rcases List.mem_append.mp hl with hx | hx
    · exfalso
      exact ha (List.any_eq_true.mpr ⟨l, hx, hm⟩)
    · simpa using hx

/-- One update from a file with at most one matching loopback line leaves
exactly one matching loopback line. -/
theorem countP_updateEtcHosts (h : String) (hosts : List String)
    (hc : hosts.countP matchesLoopback ≤ 1) :
    (updateEtcHosts h hosts).countP matchesLoopback = 1 := by
  unfold updateEtcHosts
  split
  · rename_i ha
    rw [countP_map_update]
    have h1 : 0 < hosts.countP matchesLoopback := by
      rw [List.countP_pos_iff]
      rcases List.any_eq_true.mp ha with ⟨x, hx, hpx⟩
      exact ⟨x, hx, hpx⟩
    omega
  · rename_i ha
    rw [List.countP_append]
    have h0 : hosts.countP matchesLoopback = 0 := by
      rw [List.countP_eq_zero]
      intro a haa hb
      exact ha (List.any_eq_true.mpr ⟨a, haa, hb⟩)
    rw [h0]
    simp [List.countP_cons, matchesLoopback_new]

/-- Folding the update over a non-empty hostname sequence, from a file with
at most one matching line: exactly one matching line remains and it carries
the last hostname of the sequence. -/
theorem foldl_updateEtcHosts_spec (xs : List String) :
    ∀ (x : String) (hosts : List String),
      hosts.countP matchesLoopback ≤ 1 →
      ((List.foldl (fun hs n => updateEtcHosts n hs) hosts (x :: xs)).countP
          matchesLoopback = 1 ∧
        ∀ l ∈ List.foldl (fun hs n => updateEtcHosts n hs) hosts (x :: xs),
          matchesLoopback l = true → l = "127.0.1.1 " ++ List.getLastD xs x) := by
  induction xs with
  | nil =>
    intro x hosts hc
    refine ⟨countP_updateEtcHosts x hosts hc, ?_⟩
    intro l hl hm
    exact mem_updateEtcHosts_matching x hosts l hl hm
  | cons y ys ih =>
    intro x hosts hc
    have h1 : (updateEtcHosts x hosts).countP matchesLoopback ≤ 1 := by
      rw [countP_updateEtcHosts x hosts hc]
    rw [List.foldl_cons, List.getLastD_cons]
    exact ih y (updateEtcHosts x hosts) h1

/-- C6 (amended): for every starting `/etc/hosts` content with at most one
loopback-resolution (`127.0.1.1`) line, running the `SetHostname` loopback
update any positive number of times leaves exactly one loopback-resolution
line, carrying the most recently set hostname.  (The restriction on the
starting content is forced by the source: the `sed` rewrites every matching
line, so a file that already holds two loopback lines keeps both.) -/
theorem updateEtcHosts_idempotent_amended (hosts : List String)
    (hc : hosts.countP matchesLoopback ≤ 1) (names : List String)
    (hn : names ≠ []) :
    (names.foldl (fun hs n => updateEtcHosts n hs) hosts).countP
        matchesLoopback = 1 ∧
    ∀ l ∈ names.foldl (fun hs n => updateEtcHosts n hs) hosts,
      matchesLoopback l = true → l = "127.0.1.1 " ++ names.getLast hn := by
  cases names with
  | nil => exact absurd rfl hn
  | cons x xs =>
    have h := foldl_updateEtcHosts_spec xs x hosts hc
    rw [List.getLast_eq_getLastD]
    exact h

/-- Witness for C6 (amended): updating a loopback-free file twice with the
same hostname leaves exactly one loopback line. -/
theorem updateEtcHosts_idempotent_amended_witness :
    (["devmachine", "devmachine"].foldl (fun hs n => updateEtcHosts n hs)
        ["127.0.0.1 localhost"]).countP matchesLoopback = 1 :=
  (updateEtcHosts_idempotent_amended ["127.0.0.1 localhost"] (by decide)
    ["devmachine", "devmachine"] (by decide)).1

/-- C6 counterexample: starting from a file that already contains two
loopback-resolution lines, running the update twice (same hostname) leaves
two loopback lines, not exactly one — the claim fails for arbitrary starting
contents. -/
theorem updateEtcHosts_duplicate_counterexample :
    (updateEtcHosts "newhost" (updateEtcHosts "newhost"
        ["127.0.1.1 oldhost", "127.0.1.1 otherhost"])).countP matchesLoopback
      = 2 ∧
    ¬ (updateEtcHosts "newhost" (updateEtcHosts "newhost"
        ["127.0.1.1 oldhost", "127.0.1.1 otherhost"])).countP matchesLoopback
      = 1 := by
  constructor
  · decide
  · decide

/-- A successful step run invokes every step, in list order. -/
theorem runStepsT_ok_log (l : List (String × StepT)) :
    ∀ (s : ExecSt) (log : List String) (u : Unit) (s' : ExecSt)
      (log' : List String),
      runStepsT l s log = (Except.ok u, s', log') →
      log' = log ++ l.map Prod.fst := by
  induction l with
  | nil =>
    intro s log u s' log' h
    simp only [runStepsT, Prod.mk.injEq] at h
    obtain ⟨-, -, h3⟩ := h
    simp [← h3]
  | cons hd rest ih =>
    intro s log u s' log' h
    obtain ⟨nm, st⟩ := hd
    simp only [runStepsT] at h
    cases hst : st s with
    | mk res s1 =>
      rw [hst] at h
      cases res with
      | ok v =>
        have h2 := ih s1 (log ++ [nm]) u s' log' h
        simp [h2]
      | error e0 => simp at h

/-- A failing step run invokes the steps in order up to and including the
first failing one, runs nothing after it, and returns exactly that step's
error and state. -/
theorem runStepsT_error_log (l : List (String × StepT)) :
    ∀ (s : ExecSt) (log : List String) (e : Err) (s' : ExecSt)
      (log' : List String),
      runStepsT l s log = (Except.error e, s', log') →
      ∃ k sMid, k < l.length ∧
        log' = log ++ (l.map Prod.fst).take (k + 1) ∧
        runStepsT (l.take k) s log
          = (Except.ok (), sMid, log ++ (l.map Prod.fst).take k) ∧
        ∃ nm st, l[k]? = some (nm, st) ∧ st sMid = (Except.error e, s') := by
  induction l with
  | nil =>
    intro s log e s' log' h
    simp [runStepsT] at h
  | cons hd rest ih =>
    intro s log e s' log' h
    obtain ⟨nm, st⟩ := hd
    simp only [runStepsT] at h
    cases hst : st s with
    | mk res s1 =>
      rw [hst] at h
      cases res with
      | error e0 =>
        simp only [Prod.mk.injEq] at h
        obtain ⟨h1, h2, h3⟩ := h
        have he : e0 = e := Except.error.inj h1
        refine ⟨0, s, by simp, by simp [← h3], by simp [runStepsT], nm, st, by simp, ?_⟩
        rw [hst, he, h2]
      | ok v =>
        obtain ⟨k, sMid, hk, hlog, hpre, nm2, st2, hidx, hfail⟩ :=
          ih s1 (log ++ [nm]) e s' log' h
        refine ⟨k + 1, sMid, by simpa using Nat.succ_lt_succ hk, ?_, ?_, nm2, st2,
          by simpa using hidx, hfail⟩
        · rw [hlog]
          simp [List.take_succ_cons]
        · simp only [List.take_succ_cons, runStepsT]
          rw [hst]
          simp only []
          rw [hpre]
          simp [List.take_succ_cons]

/-- The step names of the provision step list are the fixed order. -/
theorem provisionSteps_names (p : GenericProvisioner)
    (getInfo : Except Err OsReleaseInfo) (resp : Nat → Except Err String) :
    (provisionSteps p getInfo resp).map Prod.fst = provisionStepNames := rfl

/-- C2: `Provision` runs its steps in the fixed linear order (hostname, base
packages, OS update, repository configuration + engine install, readiness
poll, options directory, auth, swarm); a successful run invokes exactly that
sequence, and when a step fails the run aborts immediately — the step log is
exactly the prefix ending at the failing step, the steps before it all
succeeded, the returned error and channel state are those of the failing
step, and no later step or cleanup command runs. -/
theorem provision_step_sequence (p : GenericProvisioner) (sw : SwarmOptions)
    (au : AuthOptions) (en : EngineOptions) (getInfo : Except Err OsReleaseInfo)
    (resp : Nat → Except Err String) :
    (∀ s' log, provision p sw au en getInfo resp = (Except.ok (), s', log) →
      log = provisionStepNames) ∧
    (∀ e s' log, provision p sw au en getInfo resp = (Except.error e, s', log) →
      ∃ k sMid, k < provisionStepNames.length ∧
        log = provisionStepNames.take (k + 1) ∧
        runStepsT ((provisionSteps (provisionInit p sw au en) getInfo resp).take k)
            ⟨0, []⟩ []
          = (Except.ok (), sMid, provisionStepNames.take k) ∧
        ∃ nm st,
          (provisionSteps (provisionInit p sw au en) getInfo resp)[k]?
            = some (nm, st) ∧
          st sMid = (Except.error e, s')) := by
  have hmap := provisionSteps_names (provisionInit p sw au en) getInfo resp
  constructor
  · intro s' log h
    have h2 := runStepsT_ok_log _ _ _ _ _ _ h
    rw [hmap] at h2
    simpa using h2
  · intro e s' log h
    obtain ⟨k, sMid, hk, hlog, hpre, nm, st, hidx, hfail⟩ :=
      runStepsT_error_log _ _ _ _ _ _ h
    rw [hmap] at hlog hpre
    refine ⟨k, sMid, ?_, by simpa using hlog, by simpa using hpre, nm, st, hidx, hfail⟩
    calc k < (provisionSteps (provisionInit p sw au en) getInfo resp).length := hk
    _ = provisionStepNames.length := by rw [← hmap, List.length_map]

/-- A response oracle whose commands all succeed. -/
def respOk0 : Nat → Except Err String := fun _ => Except.ok ""

/-- A response oracle whose commands all fail. -/
def respFail0 : Nat → Except Err String :=
  fun _ => Except.error (Err.cmdFailure "boom")

/-- Witness for C2: with an all-succeeding channel, the recorded step
sequence is exactly the fixed order; with a failing channel the run aborts
with the step log cut at the failing step. -/
theorem provision_step_sequence_witness :
    (provision prov0 swarm0 auth0 engineOpts0
        (Except.ok ⟨"centos", "7"⟩) respOk0).2.2 = provisionStepNames ∧
    (∃ k sMid, k < provisionStepNames.length ∧
      (provision prov0 swarm0 auth0 engineOpts0
          (Except.ok ⟨"centos", "7"⟩) respFail0).2.2
        = provisionStepNames.take (k + 1) ∧
      runStepsT ((provisionSteps
            (provisionInit prov0 swarm0 auth0 engineOpts0)
            (Except.ok ⟨"centos", "7"⟩) respFail0).take k) ⟨0, []⟩ []
        = (Except.ok (), sMid, provisionStepNames.take k) ∧
      ∃ nm st,
        (provisionSteps (provisionInit prov0 swarm0 auth0 engineOpts0)
            (Except.ok ⟨"centos", "7"⟩) respFail0)[k]? = some (nm, st) ∧
        st sMid = (Except.error (Err.cmdFailure "boom"),
          (provision prov0 swarm0 auth0 engineOpts0
            (Except.ok ⟨"centos", "7"⟩) respFail0).2.1)) :=
  ⟨(provision_step_sequence prov0 swarm0 auth0 engineOpts0
      (Except.ok ⟨"centos", "7"⟩) respOk0).1
      (provision prov0 swarm0 auth0 engineOpts0
        (Except.ok ⟨"centos", "7"⟩) respOk0).2.1
      (provision prov0 swarm0 auth0 engineOpts0
        (Except.ok ⟨"centos", "7"⟩) respOk0).2.2 rfl,
   (provision_step_sequence prov0 swarm0 auth0 engineOpts0
      (Except.ok ⟨"centos", "7"⟩) respFail0).2 (Err.cmdFailure "boom")
      (provision prov0 swarm0 auth0 engineOpts0
        (Except.ok ⟨"centos", "7"⟩) respFail0).2.1
      (provision prov0 swarm0 auth0 engineOpts0
        (Except.ok ⟨"centos", "7"⟩) respFail0).2.2 rfl⟩

/-- The underlying character list of a string rebuilt from its characters is
the string itself. -/
theorem mk_data (s : String) : String.mk s.data = s := rfl

/-- Newline-freedom is preserved by concatenation. -/
theorem noNL_append (a b : String) (ha : noNL a) (hb : noNL b) :
    noNL (a ++ b) := by
  unfold noNL at *
  rw [data_append]
  intro hmem
  rcases List.mem_append.mp hmem with h | h
  exacts [ha h, hb h]

/-- Newline-freedom is preserved by concatenating range fragments. -/
theorem noNL_concatMap (f : String → String) (xs : List String)
    (h : ∀ x ∈ xs, noNL (f x)) : noNL (concatMap f xs) := by
  induction xs with
  | nil =>
    unfold noNL concatMap
    simp
  | cons x xs ih =>
    unfold concatMap
    exact noNL_append _ _ (h x (by simp)) (ih (fun y hy => h y (by simp [hy])))

/-- A `%q`-escaped character never contains a newline (the newline itself is
escaped to the two characters backslash-n). -/
theorem noNL_goQuoteChar (c : Char) : '\n' ∉ goQuoteChar c := by
  by_cases h1 : c = '"'
  · simp [goQuoteChar, h1]
  by_cases h2 : c = '\\'
  · simp [goQuoteChar, h1, h2]
  by_cases h3 : c = '\n'
  · simp [goQuoteChar, h1, h2, h3]
  by_cases h4 : c = '\t'
  · simp [goQuoteChar, h1, h2, h3, h4]
  by_cases h5 : c = '\r'
  · simp [goQuoteChar, h1, h2, h3, h4, h5]
  · simp only [goQuoteChar, h1, h2, h3, h4, h5, if_false, List.mem_singleton]
    exact fun he => h3 he.symm

/-- A `%q`-escaped character sequence never contains a newline. -/
theorem noNL_goQuoteData (cs : List Char) : '\n' ∉ goQuoteData cs := by
  induction cs with
  | nil => simp [goQuoteData]
  | cons c cs ih =>
    unfold goQuoteData
    intro hm
    rcases List.mem_append.mp hm with h | h
    exacts [noNL_goQuoteChar c h, ih h]

/-- A `%q`-quoted string never contains a newline, whatever the input. -/
theorem noNL_goQuote (s : String) : noNL (goQuote s) := by
  show '\n' ∉ ('"' :: (goQuoteData s.data ++ ['"']))
  intro hm
  rcases List.mem_cons.mp hm with h | h
  · exact absurd h (by decide)
  · rcases List.mem_append.mp h with h2 | h2
    · exact noNL_goQuoteData _ h2
    · rcases List.mem_singleton.mp h2 with h3
      exact absurd h3 (by decide)

/-- No decimal digit character is a newline. -/
theorem digitChar_ne_newline (n : Nat) : Nat.digitChar n ≠ '\n' := by
  rcases Nat.lt_or_ge n 16 with h | h
  · interval_cases n <;> decide
  · have he : Nat.digitChar n = '*' := by
      unfold Nat.digitChar
      repeat rw [if_neg (by omega)]
    rw [he]
    decide

/-- The digit expansion of a natural number contains no newline. -/
theorem toDigitsCore_ne_newline (b : Nat) (fuel : Nat) :
    ∀ (n : Nat) (ds : List Char), (∀ c ∈ ds, c ≠ '\n') →
      ∀ c ∈ Nat.toDigitsCore b fuel n ds, c ≠ '\n' := by
  induction fuel with
  | zero =>
    intro n ds h
    exact h
  | succ fuel ih =>
    intro n ds h
    have hcons : ∀ c ∈ (Nat.digitChar (n % b) :: ds), c ≠ '\n' := by
      intro c hc
      rcases List.mem_cons.mp hc with h1 | h1
      · rw [h1]
        exact digitChar_ne_newline _
      · exact h c h1
    simp only [Nat.toDigitsCore]
    split
    · exact hcons
    · exact ih _ _ hcons

/-- The decimal rendering of a natural number contains no newline. -/
theorem noNL_natRepr (n : Nat) : noNL (Nat.repr n) := by
  intro hm
  exact toDigitsCore_ne_newline 10 (n + 1) n [] (by simp) '\n' hm rfl

/-- The decimal rendering of an integer (the engine port in the template
context) contains no newline. -/
theorem noNL_intToString (i : Int) : noNL (toString i) := by
  cases i with
  | ofNat m => exact noNL_natRepr m
  | negSucc m =>
    show noNL ("-" ++ Nat.repr (m + 1))
    exact noNL_append _ _ (by decide) (noNL_natRepr (m + 1))

/-- Splitting a concatenation whose first part is newline-free: the first
part is glued onto the first line of the rest. -/
theorem splitChAux_append_noNL (a : List Char) (h : ∀ c ∈ a, c ≠ '\n')
    (b : List Char) :
    splitChAux (a ++ b) = (a ++ (splitChAux b).1, (splitChAux b).2) := by
  induction a with
  | nil => simp
  | cons c a ih =>
    have hc : c ≠ '\n' := h c (by simp)
    simp only [List.cons_append, splitChAux, if_neg hc, List.append_eq]
    rw [ih (fun x hx => h x (by simp [hx]))]

/-- Peeling one newline-terminated line off the front of a string. -/
theorem splitLines_cons (a b : String) (h : noNL a) :
    splitLines (a ++ "\n" ++ b) = a :: splitLines b := by
  unfold splitLines
  have hd : (a ++ "\n" ++ b).data = a.data ++ ('\n' :: b.data) := by
    rw [data_append, data_append]
    simp
  rw [hd]
  have hnotin : ∀ c ∈ a.data, c ≠ '\n' := fun c hc he => h (he ▸ hc)
  rw [splitChAux_append_noNL a.data hnotin ('\n' :: b.data)]
  simp only [splitChAux, if_pos rfl]
  simp [mk_data]

/-- The final newline of the rendered text produces a final empty line. -/
theorem splitLines_last (a : String) (h : noNL a) :
    splitLines (a ++ "\n") = [a, ""] := by
  unfold splitLines
  have hd : (a ++ "\n").data = a.data ++ ['\n'] := by
    rw [data_append]
  rw [hd]
  have hnotin : ∀ c ∈ a.data, c ≠ '\n' := fun c hc he => h (he ▸ hc)
  rw [splitChAux_append_noNL a.data hnotin ['\n']]
  simp only [splitChAux, if_pos rfl]
  simp [mk_data]

/-- The rendered `Environment` directive is always a single line: every
environment variable is individually `%q`-quoted and quoting escapes
newlines. -/
theorem noNL_envLine (c : EngineConfigContext) : noNL (envLine c) := by
  unfold envLine envText
  exact noNL_append _ _ (by decide)
    (noNL_concatMap _ _ (fun e he => noNL_append _ _ (noNL_goQuote e) (by decide)))

/-- The rendered `ExecStart` directive is a single line whenever the
rendered option strings are newline-free. -/
theorem noNL_execStartLine (c : EngineConfigContext)
    (hsd : noNL c.engineOptions.storageDriver)
    (hca : noNL c.authOptions.caCertRemotePath)
    (hsc : noNL c.authOptions.serverCertRemotePath)
    (hsk : noNL c.authOptions.serverKeyRemotePath)
    (hl : ∀ l ∈ c.engineOptions.labels, noNL l)
    (hir : ∀ r ∈ c.engineOptions.insecureRegistry, noNL r)
    (hrm : ∀ r ∈ c.engineOptions.registryMirror, noNL r)
    (haf : ∀ f ∈ c.engineOptions.arbitraryFlags, noNL f) :
    noNL (execStartLine c) := by
  unfold execStartLine labelFlags insecureRegistryFlags registryMirrorFlags
    arbitraryFlagsText
  repeat' apply noNL_append
  all_goals first
    | decide
    | exact noNL_intToString c.dockerPort
    | exact hsd
    | exact hca
    | exact hsc
    | exact hsk
    | exact noNL_concatMap _ _ (fun x hx =>
        noNL_append _ _ (noNL_append _ _ (by decide) (hl x hx)) (by decide))
    | exact noNL_concatMap _ _ (fun x hx =>
        noNL_append _ _ (noNL_append _ _ (by decide) (hir x hx)) (by decide))
    | exact noNL_concatMap _ _ (fun x hx =>
        noNL_append _ _ (noNL_append _ _ (by decide) (hrm x hx)) (by decide))
    | exact noNL_concatMap _ _ (fun x hx =>
        noNL_append _ _ (noNL_append _ _ (by decide) (haf x hx)) (by decide))

/-- C7 (amended): for every engine-configuration context whose storage
driver, certificate paths and repeated-collection elements (labels,
insecure registries, registry mirrors, arbitrary flags) contain no newline
character, the rendered service-unit text consists of exactly the eight
template lines: the single `ExecStart` line carrying every repeated
collection as one flag-value fragment per element in iteration order, and
the single `Environment` line with each variable individually quoted
(environment variables need no newline restriction, since `%q` quoting
escapes newlines).  The newline-freedom hypotheses are forced by the
counterexample: the renderer does not guard against newline-bearing
elements. -/
theorem renderEngineConfig_single_line (c : EngineConfigContext)
    (hsd : noNL c.engineOptions.storageDriver)
    (hca : noNL c.authOptions.caCertRemotePath)
    (hsc : noNL c.authOptions.serverCertRemotePath)
    (hsk : noNL c.authOptions.serverKeyRemotePath)
    (hl : ∀ l ∈ c.engineOptions.labels, noNL l)
    (hir : ∀ r ∈ c.engineOptions.insecureRegistry, noNL r)
    (hrm : ∀ r ∈ c.engineOptions.registryMirror, noNL r)
    (haf : ∀ f ∈ c.engineOptions.arbitraryFlags, noNL f) :
    splitLines (renderEngineConfig c)
      = ["[Service]", execStartLine c, "MountFlags=slave",
         "LimitNOFILE=1048576", "LimitNPROC=1048576", "LimitCORE=infinity",
         envLine c, ""] := by
  have h1 : noNL "[Service]" := by decide
  have h2 : noNL (execStartLine c) :=
    noNL_execStartLine c hsd hca hsc hsk hl hir hrm haf
  have h3 : noNL "MountFlags=slave" := by decide
  have h4 : noNL "LimitNOFILE=1048576" := by decide
  have h5 : noNL "LimitNPROC=1048576" := by decide
  have h6 : noNL "LimitCORE=infinity" := by decide
  have h7 : noNL (envLine c) := noNL_envLine c
  unfold renderEngineConfig
  rw [splitLines_cons _ _ h1, splitLines_cons _ _ h2, splitLines_cons _ _ h3,
    splitLines_cons _ _ h4, splitLines_cons _ _ h5, splitLines_cons _ _ h6,
    splitLines_last _ h7]

/-- The engine-configuration context of the spec's concrete rendering test:
labels `a` and `b`, insecure registry `r1`, environment variable `X=1`. -/
def ctx0 : EngineConfigContext :=
  ⟨2376, auth0, ⟨"devicemapper", ["a", "b"], ["r1"], [], [], ["X=1"]⟩,
   "/etc/docker"⟩

set_option maxRecDepth 8000 in
/-- Witness for C7 (amended), at the spec's concrete context: the rendered
text has exactly the eight single-line directives, with `--label a --label b`
and `--insecure-registry r1` on the `ExecStart` line and the quoted `X=1` on
the `Environment` line. -/
theorem renderEngineConfig_single_line_witness :
    splitLines (renderEngineConfig ctx0)
      = ["[Service]",
         "ExecStart=/usr/bin/docker -d -H tcp://0.0.0.0:2376 -H unix:///var/run/docker.sock --storage-driver devicemapper --tlsverify --tlscacert /etc/docker/ca.pem --tlscert /etc/docker/server.pem --tlskey /etc/docker/server-key.pem --label a --label b --insecure-registry r1 ",
         "MountFlags=slave", "LimitNOFILE=1048576", "LimitNPROC=1048576",
         "LimitCORE=infinity", "Environment=\"X=1\" ", ""] := by
  rw [renderEngineConfig_single_line ctx0 (by decide) (by decide) (by decide)
    (by decide) (by decide) (by decide) (by decide) (by decide)]
  decide

/-- A context whose label contains a newline character. -/
def ctxBad : EngineConfigContext :=
  ⟨2376, auth0, ⟨"devicemapper", [String.mk ['a', '\n', 'b']], [], [], [], []⟩,
   "/etc/docker"⟩

set_option maxRecDepth 8000 in
/-- C7 counterexample: with a label containing a newline, the rendered text
has nine lines instead of eight — the `ExecStart` directive spans two lines —
so the claim is false for arbitrary engine-configuration contexts. -/
theorem renderEngineConfig_newline_counterexample :
    (splitLines (renderEngineConfig ctxBad)).length = 9 ∧
    splitLines (renderEngineConfig ctxBad)
      ≠ ["[Service]", execStartLine ctxBad, "MountFlags=slave",
         "LimitNOFILE=1048576", "LimitNPROC=1048576", "LimitCORE=infinity",
         envLine ctxBad, ""] := by
  constructor
  · decide
  · decide

end Provision
